import Mathlib

/-!
Verification of the network-resilience and authorization core of nube-cli,
a command-line client for the Tienda Nube REST API.

The Go source is shallowly embedded: each Go function relevant to the
properties below is translated into an executable Lean definition over
plain data (Nat for counters and timestamps in nanoseconds, String for
wire values, association lists for query parameters and JSON objects).
Network and clock effects are made explicit: functions that read the
clock take a `now : Nat` argument, the HTTP server handler becomes a
pure function from the request's query to the event it pushes into the
flow's rendezvous channels, and the token-exchange HTTP call becomes a
function-valued parameter.
-/

namespace NubeCli

/-! ## Circuit breaker (`internal/api`, CircuitBreaker)

The Go struct holds `failures int`, `lastFailure time.Time`, `open bool`
behind a mutex.  The mutex serializes the three methods, so the embedding
treats each method as a pure state transformer; timestamps are Nat
nanoseconds and `time.Now()` / `time.Since` become an explicit `now`
argument. -/

/-- `CircuitBreakerThreshold = 5` consecutive failures open the circuit. -/
def circuitBreakerThreshold : Nat := 5

/-- `CircuitBreakerResetTime = 30 * time.Second`, in nanoseconds. -/
def circuitBreakerResetTimeNs : Nat := 30 * 1000000000

/-- State of `CircuitBreaker`: `failures`, `lastFailure`, `open`
(renamed `openFlag`; `open` is a Lean keyword). -/
structure CircuitBreaker where
  failures : Nat
  lastFailure : Nat
  openFlag : Bool
deriving DecidableEq, Repr

/-- `NewCircuitBreaker` returns the zero value: closed, no failures. -/
def newCircuitBreaker : CircuitBreaker := ⟨0, 0, false⟩

/-- `RecordSuccess`: resets the failure count and closes the circuit. -/
def recordSuccess (cb : CircuitBreaker) : CircuitBreaker :=
  { cb with failures := 0, openFlag := false }

/-- `RecordFailure`: increments the failure count, timestamps it, and opens
the circuit when the count reaches the threshold.  Returns the new state
and the Go function's boolean result (`true` when `failures >= threshold`
after the increment). -/
def recordFailure (cb : CircuitBreaker) (now : Nat) : CircuitBreaker × Bool :=
  let f := cb.failures + 1
  if circuitBreakerThreshold ≤ f then
    ({ failures := f, lastFailure := now, openFlag := true }, true)
  else
    ({ cb with failures := f, lastFailure := now }, false)

/-- `IsOpen`: false for a closed circuit; for an open circuit, if more than
the reset time elapsed since the last failure it eagerly closes the circuit
and zeroes the counter, otherwise it reports open and changes nothing.
`time.Since(lastFailure) > resetTime` becomes `resetTime < now - lastFailure`
(Nat subtraction truncates at 0, matching a non-positive Go duration never
exceeding the 30s cooldown). -/
def isOpen (cb : CircuitBreaker) (now : Nat) : CircuitBreaker × Bool :=
  if cb.openFlag = false then (cb, false)
  else if circuitBreakerResetTimeNs < now - cb.lastFailure then
    ({ cb with openFlag := false, failures := 0 }, false)
  else (cb, true)

/-- `applyFailures ts k cb` applies `RecordFailure` `k` times to `cb`, the
`i`-th call at time `ts i`, discarding the boolean results. -/
def applyFailures (ts : Nat → Nat) : Nat → CircuitBreaker → CircuitBreaker
  | 0, cb => cb
  | k + 1, cb => (recordFailure (applyFailures ts k cb) (ts k)).1

/-! ## Retry transport (`internal/api`, RetryTransport)

`transport.go` is not part of the source snapshot; only its tests
(`transport_test.go`) and the milestone documentation survive, so the two
definitions below are modelled from the specification and checked against
the surviving test expectations. -/

/-- Modelled from the spec: `RetryTransport` retries 429 up to 5 times
(`MaxRetries429` default); `internal/api/transport.go` is absent from the
source snapshot. -/
def maxRateLimitRetries : Nat := 5

/-- Modelled from the spec: `RetryTransport` retries 5xx up to 2 times
(`MaxRetries5xx` default); `internal/api/transport.go` is absent from the
source snapshot. -/
def maxServerErrorRetries : Nat := 2

/-- Modelled from the spec: `RetryTransport.calculateBackoff` from the
absent `internal/api/transport.go`.  Wait priority for a retryable
response: (a) the `X-Rate-Limit-Reset` header interpreted as milliseconds
when present; (b) the `Retry-After` header interpreted as seconds;
(c) exponential backoff, base delay doubled per attempt, plus random
jitter of up to 50% of the computed delay.  All values are milliseconds;
headers are `Option Nat` (`none` = absent or unparsable) and the jitter
randomness is an arbitrary `jitterSeed` reduced modulo half the delay
plus one, so the result always lies in [delay, delay + delay/2]. -/
def calculateBackoffMs (baseDelayMs attempt : Nat)
    (resetHeaderMs retryAfterSec : Option Nat) (jitterSeed : Nat) : Nat :=
  match resetHeaderMs with
  | some ms => ms
  | none =>
    match retryAfterSec with
    | some s => s * 1000
    | none =>
      let d := baseDelayMs * 2 ^ attempt
      d + jitterSeed % (d / 2 + 1)

/-- Modelled from the spec: the attempt-counting skeleton of
`RetryTransport.RoundTrip` from the absent `internal/api/transport.go`.
`status i` is the status code of the `i`-th request.  A 2xx returns at
once; a 429 retries while 429-retries remain; a 5xx retries while
5xx-retries remain; any other status returns at once.  The result is the
total number of requests made.  `fuel` only bounds the recursion; calls
start it at `r429 + r5xx`, which every retry branch decrements in
lockstep with a retry budget, so the fuel is never the limiting factor. -/
def retryGo (status : Nat → Nat) : Nat → Nat → Nat → Nat → Nat
  | 0, _, _, _ => 1
  | fuel + 1, r429, r5xx, i =>
    let s := status i
    if 200 ≤ s ∧ s < 300 then 1
    else if s = 429 then
      match r429 with
      | 0 => 1
      | r + 1 => 1 + retryGo status fuel r r5xx (i + 1)
    else if 500 ≤ s then
      match r5xx with
      | 0 => 1
      | r + 1 => 1 + retryGo status fuel r429 r (i + 1)
    else 1

/-- Modelled from the spec: total requests `RetryTransport.RoundTrip` makes
against a server answering `status i` to the `i`-th request, with retry
budgets `r429` and `r5xx`. -/
def retryAttempts (status : Nat → Nat) (r429 r5xx i : Nat) : Nat :=
  retryGo status (r429 + r5xx) r429 r5xx i

/-! ## Error classifier (`internal/api/pagination.go` file group:
`parseErrorResponse`, `parseErrorMessage`, `parseErrorCode`,
`parseValidationFields`)

Response bodies are embedded as `Option JsonValue`: `none` stands for a
body that is not valid JSON (including the empty body), `some v` for a
body whose parsed JSON value is `v`.  The Go code never parses JSON
generically — it runs `json.Unmarshal` into three fixed target shapes —
so each target shape gets a decoder mirroring `encoding/json` semantics
on that shape: decoding fails on a type mismatch, an absent field keeps
its zero value, JSON `null` leaves the target untouched (zero value),
objects decode field-by-field with a later duplicate key overriding an
earlier one. -/

/-- JSON values, as far as the three error shapes can observe them. -/
inductive JsonValue where
  | nullVal
  | boolVal (b : Bool)
  | numVal (n : Int)
  | strVal (s : String)
  | arrVal (elems : List JsonValue)
  | objVal (fields : List (String × JsonValue))

/-- Last occurrence of key `k` in a JSON object, matching `encoding/json`,
where a later duplicate key overwrites an earlier one. -/
def lookupField (fs : List (String × JsonValue)) (k : String) : Option JsonValue :=
  fs.foldl (fun acc p => if p.1 = k then some p.2 else acc) none

/-- Whether the object (hence the decoded Go map) contains key `k`. -/
def hasField (fs : List (String × JsonValue)) (k : String) : Bool :=
  fs.any (fun p => p.1 = k)

/-- Decode a `string` struct field: absent or `null` yields the zero value
`""`; a JSON string yields itself; anything else is a type error. -/
def decodeStrField (fs : List (String × JsonValue)) (k : String) : Option String :=
  match lookupField fs k with
  | none => some ""
  | some (.strVal s) => some s
  | some .nullVal => some ""
  | some _ => none

/-- `json.Unmarshal` into `struct { Code, Message, Description string }`
(format 1 of `parseErrorMessage`).  Succeeds only on a JSON object (or
`null`, which leaves the zero struct) whose three fields, where present,
are strings. -/
def decodeStructured : Option JsonValue → Option (String × String × String)
  | some (.objVal fs) =>
    match decodeStrField fs "code", decodeStrField fs "message",
        decodeStrField fs "description" with
    | some c, some m, some d => some (c, m, d)
    | _, _, _ => none
  | some .nullVal => some ("", "", "")
  | _ => none

/-- `json.Unmarshal` into `struct { Error string }` (format 2 of
`parseErrorMessage`). -/
def decodeSimpleError : Option JsonValue → Option String
  | some (.objVal fs) => decodeStrField fs "error"
  | some .nullVal => some ""
  | _ => none

/-- `json.Unmarshal` into `struct { Code string }` (`parseErrorCode`'s
target, which ignores every other field). -/
def decodeCodeOnly : Option JsonValue → Option String
  | some (.objVal fs) => decodeStrField fs "code"
  | some .nullVal => some ""
  | _ => none

/-- `parseErrorMessage`: try the structured business-error shape, prefer
`message` then `description`; otherwise try the bare `error` shape; else
the empty string.  No body ever makes it fail. -/
def parseErrorMessage (body : Option JsonValue) : String :=
  let fromSimple :=
    match decodeSimpleError body with
    | some e => e
    | none => ""
  match decodeStructured body with
  | some (_, m, d) =>
    if m ≠ "" then m
    else if d ≠ "" then d
    else fromSimple
  | none => fromSimple

/-- `parseErrorCode`: the `code` field of the structured shape, or `""`. -/
def parseErrorCode (body : Option JsonValue) : String :=
  match decodeCodeOnly body with
  | some c => c
  | none => ""

/-- Decode one JSON value as a `[]string`: `null` leaves the nil slice, an
array needs every element to be a string (`null` elements keep `""`). -/
def decodeStrElems : List JsonValue → Option (List String)
  | [] => some []
  | .strVal s :: rest =>
    match decodeStrElems rest with
    | some xs => some (s :: xs)
    | none => none
  | .nullVal :: rest =>
    match decodeStrElems rest with
    | some xs => some ("" :: xs)
    | none => none
  | _ => none

/-- `json.Unmarshal` of one object value into `[]string`. -/
def decodeStringList : JsonValue → Option (List String)
  | .nullVal => some []
  | .arrVal es => decodeStrElems es
  | _ => none

/-- `json.Unmarshal` of an object into `map[string][]string`, as an
association list in object order. -/
def decodeFieldsMap : List (String × JsonValue) → Option (List (String × List String))
  | [] => some []
  | (k, v) :: rest =>
    match decodeStringList v, decodeFieldsMap rest with
    | some xs, some m => some ((k, xs) :: m)
    | _, _ => none

/-- `parseValidationFields`: the body qualifies as a field-validation map
only if it is a JSON object decoding into `map[string][]string`, the map is
non-empty, and neither reserved key `code` nor `message` is present
(`null` and non-object bodies leave the nil map, which is empty). -/
def parseValidationFields : Option JsonValue → Option (List (String × List String))
  | some (.objVal fs) =>
    match decodeFieldsMap fs with
    | none => none
    | some m =>
      if m.isEmpty then none
      else if hasField fs "code" then none
      else if hasField fs "message" then none
      else some m
  | _ => none

/-- The typed errors `parseErrorResponse` can produce (the Go pointer
types `AuthError`, `PaymentRequiredError`, `PermissionDeniedError`,
`NotFoundError`, `ValidationError`, `APIError`; the raw `Body` string of
`APIError` is dropped, keeping its classification-relevant fields). -/
inductive APIErrorValue where
  | authError (message : String)
  | paymentRequired (message : String)
  | permissionDenied (message : String)
  | notFound (resource : String)
  | validation (statusCode : Nat) (fields : List (String × List String))
  | generic (statusCode : Nat) (code message : String)
deriving DecidableEq, Repr

/-- Whether a typed error is the `Generic` (`APIError`) variant. -/
def isGenericError : APIErrorValue → Bool
  | .generic _ _ _ => true
  | _ => false

/-- Whether a typed error is the `Validation` variant. -/
def isValidationErr : APIErrorValue → Bool
  | .validation _ _ => true
  | _ => false

/-- `parseErrorResponse`: 401/402/403/404 map to their dedicated variants
(404 with the fixed resource label); a 422 whose body qualifies as a
field-validation map yields `Validation`; everything else yields the
generic `APIError` with whatever code and message were recoverable. -/
def parseErrorResponse (status : Nat) (body : Option JsonValue) : APIErrorValue :=
  let message := parseErrorMessage body
  if status = 401 then .authError message
  else if status = 402 then .paymentRequired message
  else if status = 403 then .permissionDenied message
  else if status = 404 then .notFound "resource"
  else
    let fallback : APIErrorValue := .generic status (parseErrorCode body) message
    if status = 422 then
      match parseValidationFields body with
      | some fs => .validation status fs
      | none => fallback
    else fallback

/-! ## Pagination (`internal/api/pagination.go`: `PageInfo`,
`ParseLinkHeader`, `CollectAllPages`)

`CollectAllPages` drives an HTTP `Client` and a caller-supplied decoder;
both are abstracted into one `get` function from (path, query) to the
page's decoded items plus its raw `Link` header.  Go's `url.Parse` /
`url.Values` are modelled just as far as the collector uses them: path
extraction from an absolute URL and `key=value&...` query parsing.  The
Go loop has no intrinsic bound (a cyclic `next` chain would loop
forever), so the embedding takes explicit fuel and returns `none` when
the fuel runs out. -/

/-- `PageInfo`: parsed Link-header URLs (empty string = absent). -/
structure PageInfo where
  next : String
  prev : String
  first : String
  last : String
deriving DecidableEq, Repr

/-- The zero `PageInfo`. -/
def emptyPageInfo : PageInfo := ⟨"", "", "", ""⟩

/-! The Go code leans on `strings` / `net/url` stdlib helpers; they are
re-implemented here by structural recursion over the character list so
that every definition evaluates inside the kernel. -/

/-- ASCII whitespace, the subset of `unicode.IsSpace` that HTTP headers
and URLs can contain. -/
def isSpaceChar (c : Char) : Bool := c = ' ' ∨ c = '\t' ∨ c = '\n' ∨ c = '\r'

/-- `strings.TrimSpace`. -/
def trimSpaces (s : String) : String :=
  ⟨((s.data.dropWhile isSpaceChar).reverse.dropWhile isSpaceChar).reverse⟩

/-- `strings.HasPrefix`. -/
def strHasLead (p s : String) : Bool := p.data.isPrefixOf s.data

/-- `strings.HasSuffix`. -/
def strHasTail (p s : String) : Bool := p.data.reverse.isPrefixOf s.data.reverse

/-- `strings.TrimPrefix`. -/
def dropLead (p s : String) : String :=
  if strHasLead p s then ⟨s.data.drop p.data.length⟩ else s

/-- `strings.TrimSuffix`. -/
def dropTail (p s : String) : String :=
  if strHasTail p s then ⟨s.data.take (s.data.length - p.data.length)⟩ else s

/-- Splitting worker: at each position, either the (non-empty) separator
matches and a group boundary is emitted, or the head character joins the
current group.  The fuel starts at the input length, an upper bound on
the number of steps, so it never cuts the run short. -/
def splitGo (sep : List Char) : Nat → List Char → List (List Char)
  | _, [] => [[]]
  | 0, cs => [cs]
  | fuel + 1, c :: rest =>
    if sep.isPrefixOf (c :: rest) ∧ sep ≠ [] then
      [] :: splitGo sep fuel (List.drop (sep.length - 1) rest)
    else
      match splitGo sep fuel rest with
      | [] => [[c]]
      | g :: gs => (c :: g) :: gs

/-- `strings.Split(s, sep)` for a non-empty separator (the only way the
source calls it): `""` yields `[""]`, adjacent separators yield empty
groups. -/
def splitOnStr (sep s : String) : List String :=
  (splitGo sep.data s.data.length s.data).map fun cs => ⟨cs⟩

/-- `strings.Join`. -/
def joinWith (sep : String) : List String → String
  | [] => ""
  | [x] => x
  | x :: xs => x ++ sep ++ joinWith sep xs

/-- `strings.Trim(s, "\x22")`: strip leading and trailing quote runs. -/
def trimQuoteChars (s : String) : String :=
  ⟨((s.data.dropWhile (· = '"')).reverse.dropWhile (· = '"')).reverse⟩

/-- `strings.TrimPrefix(s, "<")` then `strings.TrimSuffix(s, ">")`. -/
def stripAngles (s : String) : String :=
  dropTail ">" (dropLead "<" s)

/-- `strings.TrimPrefix(rel, "rel=")`. -/
def stripRelTag (s : String) : String :=
  dropLead "rel=" s

/-- One iteration of `ParseLinkHeader`'s loop: trim the comma-separated
part, skip empties, `SplitN(part, ";", 2)`, strip angle brackets from the
URL, strip `rel=` and quotes from the relation, and record the URL under
a recognized relation name. -/
def parseLinkSegment (info : PageInfo) (part : String) : PageInfo :=
  let p := trimSpaces part
  if p = "" then info
  else
    match splitOnStr ";" p with
    | [] => info
    | [_] => info
    | seg0 :: rest =>
      let rawURL := stripAngles (trimSpaces seg0)
      let rel := trimQuoteChars (stripRelTag (trimSpaces (joinWith ";" rest)))
      if rel = "next" then { info with next := rawURL }
      else if rel = "prev" then { info with prev := rawURL }
      else if rel = "first" then { info with first := rawURL }
      else if rel = "last" then { info with last := rawURL }
      else info

/-- `ParseLinkHeader`: fold the segment parser over the comma-split
header; malformed segments contribute nothing. -/
def parseLinkHeader (header : String) : PageInfo :=
  (splitOnStr "," header).foldl parseLinkSegment emptyPageInfo

/-- `url.Parse(u).Path` for the absolute URLs the API emits: drop the
query, then scheme and host; a string without `://` is kept as-is. -/
def urlPath (u : String) : String :=
  let beforeQ := (splitOnStr "?" u).headD ""
  match splitOnStr "://" beforeQ with
  | [_, rest] =>
    match splitOnStr "/" rest with
    | [] => ""
    | _ :: segs =>
      if segs = [] then "" else joinWith "/" ("" :: segs)
  | _ => beforeQ

/-- `url.Values` parsing of a raw query: split on `&`, then each pair on
its first `=`. -/
def parseQueryStr (q : String) : List (String × String) :=
  (splitOnStr "&" q).filterMap fun kv =>
    if kv = "" then none
    else
      match splitOnStr "=" kv with
      | [] => none
      | [k] => some (k, "")
      | k :: rest => some (k, joinWith "=" rest)

/-- `url.Parse(u).Query()`: everything after the first `?`. -/
def urlQuery (u : String) : List (String × String) :=
  match splitOnStr "?" u with
  | _ :: q :: qs => parseQueryStr (joinWith "?" (q :: qs))
  | _ => []

/-- `url.Values.Get`: first value for the key, or `""`. -/
def getParam (q : List (String × String)) (k : String) : String :=
  match q.find? (fun p => p.1 == k) with
  | some p => p.2
  | none => ""

/-- One page as the collector sees it: the decoded items and the raw
`Link` response header. -/
structure PageResp (α : Type) where
  items : List α
  linkHeader : String

/-- `CollectAllPages`: fetch a page, record its `Link` header before
decoding, append its items, and follow the `next` relation (parsed back
into path + query) until a page has no `Link` header or no `next`
relation.  Returns the collected items in traversal order together with
the number of GET requests made, or `none` if the fuel is exhausted. -/
def collectAllPages {α : Type} (get : String → List (String × String) → PageResp α) :
    Nat → String → List (String × String) → Option (List α × Nat)
  | 0, _, _ => none
  | fuel + 1, path, query =>
    let resp := get path query
    if resp.linkHeader = "" then some (resp.items, 1)
    else
      let info := parseLinkHeader resp.linkHeader
      if info.next = "" then some (resp.items, 1)
      else
        match collectAllPages get fuel (urlPath info.next) (urlQuery info.next) with
        | none => none
        | some (rest, n) => some (resp.items ++ rest, n + 1)

/-! ## Authorization flow (`internal/oauth`, `authorizeServer`)

The callback `http.HandlerFunc` writes at most one event into the
buffered channels `resultCh` / `errCh`; the surrounding `select` then
turns the first event into the flow's outcome, exchanging the
authorization code via `exchangeCode` only on the native-result path.
The embedding splits exactly there: `handleCallback` is the pure handler
(for a request to the `/callback` path, from its parsed query),
`settleCallback` is the `select` arm fed one event, with the
token-exchange HTTP call abstracted as a function argument; the returned
Bool records whether that exchange was invoked.  In the native flow
`state` is the generated CSRF token; in the broker flow the Go variable
keeps its zero value `""`. -/

/-- `authResult`: `code` for the native flow, `token` and `userID` for
the broker flow. -/
structure AuthResult where
  code : String
  token : String
  userID : String
deriving DecidableEq, Repr

/-- `TokenResponse` (access token, token type, scope, user id; the
`json.Number` user id is kept as its string). -/
structure TokenResponse where
  accessToken : String
  tokenType : String
  scope : String
  userID : String
deriving DecidableEq, Repr

/-- The sentinel errors of the flow (`errAuthorization` with the
callback's `error` value, `errStateMismatch`, `errMissingCode`,
`errNoAccessToken`) plus a token-exchange failure carrying the non-200
status. -/
inductive AuthFlowError where
  | authorizationErr (providerMsg : String)
  | stateMismatch
  | missingCode
  | noAccessToken
  | tokenExchange (status : Nat)
deriving DecidableEq, Repr

/-- What the handler pushes: a result into `resultCh` or an error into
`errCh`. -/
inductive CallbackEvent where
  | resultEvent (r : AuthResult)
  | errEvent (e : AuthFlowError)
deriving DecidableEq, Repr

/-- The `/callback` handler body, in source order: a non-empty `error`
parameter reports a provider error; a non-empty `token` parameter is the
broker-style direct result; otherwise the native flow validates `state`
against the CSRF token and requires a non-empty `code`; a broker flow
without a token is `errNoAccessToken`. -/
def handleCallback (isBroker : Bool) (state : String)
    (q : List (String × String)) : CallbackEvent :=
  if getParam q "error" ≠ "" then .errEvent (.authorizationErr (getParam q "error"))
  else if getParam q "token" ≠ "" then
    .resultEvent ⟨"", getParam q "token", getParam q "user_id"⟩
  else if isBroker = false then
    if getParam q "state" ≠ state then .errEvent .stateMismatch
    else if getParam q "code" = "" then .errEvent .missingCode
    else .resultEvent ⟨getParam q "code", "", ""⟩
  else .errEvent .noAccessToken

/-- Outcome of `authorizeServer`: a token response or an error. -/
inductive FlowOutcome where
  | success (tok : TokenResponse)
  | failure (e : AuthFlowError)
deriving DecidableEq, Repr

/-- Whether the flow ended successfully. -/
def isSuccess : FlowOutcome → Bool
  | .success _ => true
  | .failure _ => false

/-- The `select` over the rendezvous channels, fed the one event the
callback produced.  A result with a non-empty token is the broker-style
success built directly from the callback parameters; a result with an
empty token runs the code exchange (`exchangeCode`, abstracted as
`exchange`); an error fails the flow.  The Bool is true iff the exchange
was invoked. -/
def settleCallback (exchange : String → Except AuthFlowError TokenResponse) :
    CallbackEvent → FlowOutcome × Bool
  | .resultEvent r =>
    if r.token ≠ "" then (.success ⟨r.token, "", "", r.userID⟩, false)
    else
      match exchange r.code with
      | .ok tok => (.success tok, true)
      | .error e => (.failure e, true)
  | .errEvent e => (.failure e, false)

/-- End-to-end outcome of `authorizeServer` on a single `/callback`
request with query `q`. -/
def flowOnCallback (isBroker : Bool) (state : String)
    (exchange : String → Except AuthFlowError TokenResponse)
    (q : List (String × String)) : FlowOutcome × Bool :=
  settleCallback exchange (handleCallback isBroker state q)

/-- A concrete exchanger that always fails; used to instantiate theorems
at inputs whose path never reaches the exchange. -/
def exchangeNever : String → Except AuthFlowError TokenResponse :=
  fun _ => .error .noAccessToken

/-- A concrete three-page paginated endpoint: page 1 (no `page`
parameter) holds two items and links page 2, page 2 holds one item and
links page 3, page 3 holds one item and has no `Link` header. -/
def threePageGet : String → List (String × String) → PageResp Nat :=
  fun _ q =>
    if getParam q "page" == "2" then
      ⟨[30], "<https://api.example.com/v1/1/products?page=3>; rel=\"next\""⟩
    else if getParam q "page" == "3" then ⟨[40], ""⟩
    else ⟨[10, 20], "<https://api.example.com/v1/1/products?page=2>; rel=\"next\""⟩

end NubeCli

namespace NubeCli

/-! ## Theorems: circuit breaker and retry transport -/

/-- A run of failures from a closed state below the threshold keeps the
circuit closed and adds exactly one failure per call. -/
lemma applyFailures_below_threshold (ts : Nat → Nat) (cb : CircuitBreaker)
    (hcl : cb.openFlag = false) :
    ∀ k, cb.failures + k < circuitBreakerThreshold →
      (applyFailures ts k cb).failures = cb.failures + k ∧
        (applyFailures ts k cb).openFlag = false := by
  intro k
  induction k with
  | zero => intro _; exact ⟨rfl, hcl⟩
  | succ n ih =>
    intro hlt
    have hn : cb.failures + n < circuitBreakerThreshold := by omega
    obtain ⟨hf, ho⟩ := ih hn
    have hthr : ¬ circuitBreakerThreshold ≤ (applyFailures ts n cb).failures + 1 := by
      omega
    simp only [applyFailures, recordFailure, hthr, if_false]
    constructor
    · simpa [hf] using by omega
    · exact ho

/-- C4: starting from a fresh breaker, the circuit is closed after any
`k < 5` consecutive `RecordFailure` calls and open after the 5th; a
`RecordSuccess` zeroes the counter and closes the circuit, and 4 failures
after a success leave the circuit closed. -/
theorem circuit_opens_on_exactly_fifth_failure (ts : Nat → Nat) (cb : CircuitBreaker) :
    (∀ k, k < 5 → (applyFailures ts k newCircuitBreaker).openFlag = false)
    ∧ (applyFailures ts 5 newCircuitBreaker).openFlag = true
    ∧ (recordSuccess cb).failures = 0
    ∧ (recordSuccess cb).openFlag = false
    ∧ (∀ k, k ≤ 4 → (applyFailures ts k (recordSuccess cb)).openFlag = false) := by
  refine ⟨?_, ?_, rfl, rfl, ?_⟩
  · intro k hk
    exact (applyFailures_below_threshold ts newCircuitBreaker rfl k
      (by simpa [newCircuitBreaker, circuitBreakerThreshold] using hk)).2
  · obtain ⟨hf, ho⟩ := applyFailures_below_threshold ts newCircuitBreaker rfl 4
      (by simp [newCircuitBreaker, circuitBreakerThreshold])
    have hthr : circuitBreakerThreshold ≤ (applyFailures ts 4 newCircuitBreaker).failures + 1 := by
      rw [hf]; decide
    show (recordFailure (applyFailures ts 4 newCircuitBreaker) (ts 4)).1.openFlag = true
    simp [recordFailure, hthr]
  · intro k hk
    refine (applyFailures_below_threshold ts (recordSuccess cb) rfl k ?_).2
    have h0 : (recordSuccess cb).failures = 0 := rfl
    rw [h0]
    simp only [circuitBreakerThreshold]
    omega

/-- Witness for `circuit_opens_on_exactly_fifth_failure` at a concrete
breaker, time sequence, and failure count. -/
theorem circuit_opens_on_exactly_fifth_failure_witness :
    (applyFailures (fun _ => 7) 4 newCircuitBreaker).openFlag = false
    ∧ (applyFailures (fun _ => 7) 5 newCircuitBreaker).openFlag = true
    ∧ (applyFailures (fun _ => 7) 4 (recordSuccess ⟨5, 3, true⟩)).openFlag = false := by
  refine ⟨?_, ?_, ?_⟩
  · exact (circuit_opens_on_exactly_fifth_failure (fun _ => 7) ⟨5, 3, true⟩).1 4 (by decide)
  · exact (circuit_opens_on_exactly_fifth_failure (fun _ => 7) ⟨5, 3, true⟩).2.1
  · exact (circuit_opens_on_exactly_fifth_failure (fun _ => 7) ⟨5, 3, true⟩).2.2.2.2 4 (by decide)

/-- C5 (amended): `RecordFailure` returns true exactly when the incremented
counter has reached the threshold of 5 — on the opening call and on every
further failure of the same streak — and false exactly below it;
whenever it returns true the resulting state is open. -/
theorem recordFailure_true_iff_threshold (cb : CircuitBreaker) (t : Nat) :
    ((recordFailure cb t).2 = true ↔ circuitBreakerThreshold ≤ cb.failures + 1)
    ∧ ((recordFailure cb t).2 = true → (recordFailure cb t).1.openFlag = true) := by
  by_cases h : circuitBreakerThreshold ≤ cb.failures + 1
  · simp [recordFailure, h]
  · simp [recordFailure, h]

/-- C5 counterexample: the 6th consecutive `RecordFailure` call on a fresh
breaker happens while the circuit is already open, yet still returns true —
refuting the claim that only the opening call returns true. -/
theorem recordFailure_sixth_call_counterexample :
    (applyFailures (fun _ => 0) 5 newCircuitBreaker).openFlag = true
    ∧ (recordFailure (applyFailures (fun _ => 0) 5 newCircuitBreaker) 0).2 = true := by
  decide

/-- C6: for an open breaker, an `IsOpen` call strictly after the 30-second
cooldown clears the open flag, zeroes the counter, and returns false; one
within the cooldown returns true and leaves the state untouched. -/
theorem isOpen_cooldown_reset (cb : CircuitBreaker) (now : Nat)
    (hopen : cb.openFlag = true) :
    (circuitBreakerResetTimeNs < now - cb.lastFailure →
      isOpen cb now = ({ cb with openFlag := false, failures := 0 }, false))
    ∧ (now - cb.lastFailure ≤ circuitBreakerResetTimeNs →
      isOpen cb now = (cb, true)) := by
  constructor
  · intro h
    simp [isOpen, hopen, h]
  · intro h
    have h2 : ¬ circuitBreakerResetTimeNs < now - cb.lastFailure := by omega
    simp [isOpen, hopen, h2]

/-- Witness for `isOpen_cooldown_reset`: a breaker opened at t = 0 with 5
failures, checked just after and just before the cooldown boundary. -/
theorem isOpen_cooldown_reset_witness :
    isOpen ⟨5, 0, true⟩ 30000000001 = (⟨0, 0, false⟩, false)
    ∧ isOpen ⟨5, 0, true⟩ 30000000000 = (⟨5, 0, true⟩, true) :=
  ⟨(isOpen_cooldown_reset ⟨5, 0, true⟩ 30000000001 rfl).1 (by decide),
   (isOpen_cooldown_reset ⟨5, 0, true⟩ 30000000000 rfl).2 (by decide)⟩

/-- C3: the 429 wait priority — a present rate-limit-reset header (ms) wins
over everything, then a retry-after header (seconds, converted to ms), then
exponential backoff `base * 2 ^ attempt` with jitter bounded by 50% of the
delay; and against a server that always answers 429 with the default
budgets the transport makes exactly 6 requests (1 initial + 5 retries). -/
theorem backoff_priority_and_429_attempt_bound :
    (∀ base att ra j ms, calculateBackoffMs base att (some ms) ra j = ms)
    ∧ (∀ base att j s, calculateBackoffMs base att none (some s) j = s * 1000)
    ∧ (∀ base att j,
        base * 2 ^ att ≤ calculateBackoffMs base att none none j
        ∧ calculateBackoffMs base att none none j
            ≤ base * 2 ^ att + (base * 2 ^ att) / 2)
    ∧ retryAttempts (fun _ => 429) maxRateLimitRetries maxServerErrorRetries 0 = 6 := by
  refine ⟨fun _ _ _ _ _ => rfl, fun _ _ _ _ => rfl, ?_, by decide⟩
  intro base att j
  constructor
  · exact Nat.le_add_right _ _
  · have hj : j % (base * 2 ^ att / 2 + 1) ≤ base * 2 ^ att / 2 :=
      Nat.lt_succ_iff.mp (Nat.mod_lt j (by omega))
    simpa [calculateBackoffMs] using Nat.add_le_add_left hj (base * 2 ^ att)

/-! ## Theorems: error classifier -/

/-- A 422 body containing a reserved key never qualifies as a
field-validation map. -/
lemma parseValidationFields_reserved (fs : List (String × JsonValue))
    (h : hasField fs "code" = true ∨ hasField fs "message" = true) :
    parseValidationFields (some (.objVal fs)) = none := by
  rcases h with h | h <;>
    · simp only [parseValidationFields]
      cases hdec : decodeFieldsMap fs <;> simp [h]

/-- C7: at status 422, a body decoding into a non-empty field→messages map
without the reserved keys `code`/`message` classifies as `Validation`
carrying those fields; any 422 object body containing `code` or `message`
classifies as `Generic`, never `Validation` — in particular the business
error body with code 422 and message x. -/
theorem validation_classification_422 :
    (∀ (fs : List (String × JsonValue)) (m : List (String × List String)),
        decodeFieldsMap fs = some m → m ≠ [] →
        hasField fs "code" = false → hasField fs "message" = false →
        parseErrorResponse 422 (some (.objVal fs)) = .validation 422 m)
    ∧ (∀ fs : List (String × JsonValue),
        hasField fs "code" = true ∨ hasField fs "message" = true →
        isValidationErr (parseErrorResponse 422 (some (.objVal fs))) = false
          ∧ isGenericError (parseErrorResponse 422 (some (.objVal fs))) = true)
    ∧ parseErrorResponse 422 (some (.objVal [("code", .numVal 422), ("message", .strVal "x")]))
        = .generic 422 "" "" := by
  refine ⟨?_, ?_, by decide⟩
  · intro fs m hdec hne hc hm
    have hemp : m.isEmpty = false := by
      cases m with
      | nil => exact absurd rfl hne
      | cons a l => rfl
    simp [parseErrorResponse, parseValidationFields, hdec, hemp, hc, hm]
  · intro fs h
    have hnone := parseValidationFields_reserved fs h
    constructor <;> simp [parseErrorResponse, hnone, isValidationErr, isGenericError]

/-- Witness for `validation_classification_422` at the body with a single
field `name` carrying the message `required`. -/
theorem validation_classification_422_witness :
    parseErrorResponse 422 (some (.objVal [("name", .arrVal [.strVal "required"])]))
      = .validation 422 [("name", ["required"])] :=
  validation_classification_422.1 [("name", .arrVal [.strVal "required"])]
    [("name", ["required"])] rfl (by decide) rfl rfl

/-- C8 (amended): the classifier is a total function; a non-JSON or empty
body (embedded as `none`) yields `Generic` with empty code and message at
every status without a dedicated variant, while statuses 401/402/403/404
yield their dedicated variants, likewise with an empty message. -/
theorem classifier_empty_body_generic (s : Nat)
    (h1 : s ≠ 401) (h2 : s ≠ 402) (h3 : s ≠ 403) (h4 : s ≠ 404) :
    parseErrorResponse s none = .generic s "" ""
    ∧ parseErrorResponse 401 none = .authError ""
    ∧ parseErrorResponse 402 none = .paymentRequired ""
    ∧ parseErrorResponse 403 none = .permissionDenied ""
    ∧ parseErrorResponse 404 none = .notFound "resource" := by
  refine ⟨?_, by decide, by decide, by decide, by decide⟩
  by_cases h422 : s = 422
  · subst h422; decide
  · have hmsg : parseErrorMessage none = "" := rfl
    have hcode : parseErrorCode none = "" := rfl
    simp [parseErrorResponse, h1, h2, h3, h4, h422, hmsg, hcode]

/-- Witness for `classifier_empty_body_generic` at status 500. -/
theorem classifier_empty_body_generic_witness :
    parseErrorResponse 500 none = .generic 500 "" "" :=
  (classifier_empty_body_generic 500 (by decide) (by decide) (by decide) (by decide)).1

/-- C8 counterexample: at status 401 an empty (non-JSON) body is classified
as the dedicated `Auth` error, not as a `Generic` error — refuting the
claim's universally quantified Generic-with-empty-message clause. -/
theorem classifier_401_empty_body_counterexample :
    parseErrorResponse 401 none = .authError ""
    ∧ isGenericError (parseErrorResponse 401 none) = false := by
  decide

/-! ## Theorems: pagination -/

/-- C9: the collector returns the 2+1+1 items of three `next`-chained
pages in page order using exactly 3 GETs; and for any endpoint whose
response has no `Link` header it returns exactly that page's items with
exactly 1 GET. -/
theorem pagination_collects_chained_pages :
    collectAllPages threePageGet 10 "/v1/1/products" [] = some ([10, 20, 30, 40], 3)
    ∧ ∀ (α : Type) (get : String → List (String × String) → PageResp α)
        (path : String) (query : List (String × String)) (fuel : Nat),
        (get path query).linkHeader = "" →
        collectAllPages get (fuel + 1) path query = some ((get path query).items, 1) := by
  constructor
  · decide
  · intro α get path query fuel h
    simp [collectAllPages, h]

/-- Witness for `pagination_collects_chained_pages` at a concrete
single-page endpoint. -/
theorem pagination_collects_chained_pages_witness :
    collectAllPages (fun _ _ => PageResp.mk ([7, 8] : List Nat) "") 1 "/v1/1/orders" []
      = some ([7, 8], 1) :=
  pagination_collects_chained_pages.2 Nat (fun _ _ => PageResp.mk [7, 8] "")
    "/v1/1/orders" [] 0 rfl

/-! ## Theorems: authorization flow -/

/-- C2: any callback with no `error` parameter and a non-empty `token`
parameter completes the flow successfully with that token and the
`user_id` parameter, in both the broker and the native variant, with no
state check (the CSRF token is arbitrary) and no code exchange. -/
theorem token_branch_precedes_state_check (isBroker : Bool) (csrf : String)
    (exchange : String → Except AuthFlowError TokenResponse)
    (q : List (String × String))
    (herr : getParam q "error" = "") (htok : getParam q "token" ≠ "") :
    flowOnCallback isBroker csrf exchange q
      = (.success ⟨getParam q "token", "", "", getParam q "user_id"⟩, false) := by
  simp [flowOnCallback, handleCallback, settleCallback, herr, htok]

/-- Witness for `token_branch_precedes_state_check` in the native variant
with a mismatched state parameter. -/
theorem token_branch_precedes_state_check_witness :
    flowOnCallback false "S" exchangeNever [("token", "tkn"), ("state", "bad")]
      = (.success ⟨"tkn", "", "", ""⟩, false) :=
  token_branch_precedes_state_check false "S" exchangeNever
    [("token", "tkn"), ("state", "bad")] rfl (by decide)

/-- C1 (amended): in the native flow, for callbacks with no `error`
parameter and no `token` parameter: a successful completion implies the
`state` parameter equals the CSRF token and `code` is non-empty; a
mismatched `state` fails with the state-mismatch error without invoking
the token exchange; a matching `state` with empty `code` fails with the
missing-code error without invoking the exchange. -/
theorem native_callback_state_validation (csrf : String)
    (exchange : String → Except AuthFlowError TokenResponse)
    (q : List (String × String))
    (herr : getParam q "error" = "") (htok : getParam q "token" = "") :
    (isSuccess (flowOnCallback false csrf exchange q).1 = true →
      getParam q "state" = csrf ∧ getParam q "code" ≠ "")
    ∧ (getParam q "state" ≠ csrf →
        flowOnCallback false csrf exchange q = (.failure .stateMismatch, false))
    ∧ (getParam q "state" = csrf → getParam q "code" = "" →
        flowOnCallback false csrf exchange q = (.failure .missingCode, false)) := by
  refine ⟨?_, ?_, ?_⟩
  · intro hsucc
    by_cases hst : getParam q "state" = csrf
    · by_cases hcd : getParam q "code" = ""
      · exfalso
        simp [flowOnCallback, handleCallback, settleCallback, herr, htok, hst, hcd,
          isSuccess] at hsucc
      · exact ⟨hst, hcd⟩
    · exfalso
      simp [flowOnCallback, handleCallback, settleCallback, herr, htok, hst,
        isSuccess] at hsucc
  · intro hst
    simp [flowOnCallback, handleCallback, settleCallback, herr, htok, hst]
  · intro hst hcd
    simp [flowOnCallback, handleCallback, settleCallback, herr, htok, hst, hcd]

/-- Witness for `native_callback_state_validation`: a state-mismatching
callback and a matching-but-codeless callback, both with neither `error`
nor `token` parameters. -/
theorem native_callback_state_validation_witness :
    flowOnCallback false "S" exchangeNever [("state", "bad"), ("code", "c")]
        = (.failure .stateMismatch, false)
    ∧ flowOnCallback false "S" exchangeNever [("state", "S")]
        = (.failure .missingCode, false) :=
  ⟨(native_callback_state_validation "S" exchangeNever [("state", "bad"), ("code", "c")]
      rfl rfl).2.1 (by decide),
   (native_callback_state_validation "S" exchangeNever [("state", "S")]
      rfl rfl).2.2 (by decide) rfl⟩

/-- C1 counterexample: in the native flow with CSRF token S, the callback
query carrying a non-empty `token` parameter and the mismatched state
value bad completes the flow successfully and does not fail with a
state-mismatch error, and no exchange is attempted — refuting both the
claim's success clause (success without a matching state or any code) and
its mismatch clause. -/
theorem native_token_bypass_counterexample :
    isSuccess (flowOnCallback false "S" exchangeNever
        [("token", "tkn"), ("state", "bad")]).1 = true
    ∧ getParam [("token", "tkn"), ("state", "bad")] "state" ≠ "S"
    ∧ flowOnCallback false "S" exchangeNever [("token", "tkn"), ("state", "bad")]
        ≠ (.failure .stateMismatch, false) := by
  decide

/-- C10: in the broker flow (where the Go `state` variable stays empty), a
callback carrying `token` and `user_id` (and no `error`) completes the
flow successfully with the token result built from those two parameters,
and the token-exchange call is never made. -/
theorem broker_callback_direct_token (exchange : String → Except AuthFlowError TokenResponse)
    (q : List (String × String))
    (herr : getParam q "error" = "") (htok : getParam q "token" ≠ "") :
    flowOnCallback true "" exchange q
      = (.success ⟨getParam q "token", "", "", getParam q "user_id"⟩, false) := by
  simp [flowOnCallback, handleCallback, settleCallback, herr, htok]

/-- Witness for `broker_callback_direct_token` at the broker callback with
token broker-tok and user id 77. -/
theorem broker_callback_direct_token_witness :
    flowOnCallback true "" exchangeNever [("token", "broker-tok"), ("user_id", "77")]
      = (.success ⟨"broker-tok", "", "", "77"⟩, false) :=
  broker_callback_direct_token exchangeNever [("token", "broker-tok"), ("user_id", "77")]
    rfl (by decide)

end NubeCli
